import Mathlib

/-!
Shallow embedding of the actix-web database identity provider
(src/src/lib.rs and src/src/sql.rs), together with theorems about its
identity state machine, store handlers and extraction adapter.

Conventions of the embedding:
* Rust structs become Lean structures; `Option<String>` becomes `Option String`.
* `NaiveDateTime` timestamps are abstracted as `Int` (only equality matters here).
* The random number generator is a capability: `remember` takes the 24 freshly
  drawn bytes as an explicit argument (`rand::thread_rng().fill(&mut arr)`).
* The actor mailbox and futures are flattened: a store handler is a pure
  function from the current table contents (a list of rows) and the message to
  the new table contents and the affected row count; `write` returns the next
  identity value together with the effect it would enqueue.
* Fallible paths return `Except`/`Option`.
-/

set_option autoImplicit false

/-- The error enum `SqlIdentityError` from src/src/lib.rs. -/
inductive SqlIdentityError where
  | SqlVariantNotSupported
  | TokenNotFound
  | TokenNotSet
  | TokenRequired
  deriving DecidableEq, Repr

/-- The state enum `SqlIdentityState` from src/src/lib.rs. -/
inductive SqlIdentityState where
  | Changed
  | Deleted
  | Unchanged
  deriving DecidableEq, Repr

/-- The per-request identity `SqlIdentity` from src/src/lib.rs.  The `inner`
field (the shared store handle) is dropped: store interaction is modelled by
explicit effect values instead. -/
structure SqlIdentity where
  state : SqlIdentityState
  identity : Option String
  token : Option String
  ip : Option String
  user_agent : Option String
  created : Int
  deriving DecidableEq, Repr

/-- A row of the `identities` table, struct `SqlIdentityModel` from
src/src/sql.rs. -/
structure SqlIdentityModel where
  id : Int
  token : String
  userid : String
  ip : Option String
  useragent : Option String
  created : Int
  modified : Int
  deriving DecidableEq, Repr

/-- The `identities` table contents, in row order. -/
abbrev IdentityStore := List SqlIdentityModel

/-- The `UpdateIdentity` message struct from src/src/sql.rs: a diesel
changeset carrying only `id`, `ip`, `useragent` and `modified`. -/
structure UpdateIdentity where
  id : Int
  ip : Option String
  useragent : Option String
  modified : Int
  deriving DecidableEq, Repr

/-- The `CreateIdentity` message struct from src/src/sql.rs. -/
structure CreateIdentity where
  token : String
  userid : String
  ip : Option String
  useragent : Option String
  created : Int
  modified : Int
  deriving DecidableEq, Repr

/-- Error outcome of the find handler: diesel's `first` returns a NotFound
error when no row matches. -/
inductive FindError where
  | notFound
  deriving DecidableEq, Repr

/-- `Handler<FindIdentity> for SqlActor` (src/src/sql.rs, lines 166-194):
`identities.filter(token.eq(msg.token)).first(conn)`.  Diesel's `first`
appends `LIMIT 1` and returns the first matching row, failing with NotFound
only when no row matches; the embedding returns the first match in row
order. -/
def SqlActor.handleFind (store : IdentityStore) (msgToken : String) :
    Except FindError SqlIdentityModel :=
  match store.filter (fun r => r.token == msgToken) with
  | [] => .error .notFound
  | r :: _ => .ok r

/-- `Handler<UpdateIdentity> for SqlActor` (src/src/sql.rs, lines 295-341):
`diesel::update(identities.find(msg.id)).set(&msg)` — update the row whose
primary key equals `msg.id`, setting only the changeset columns (`ip`,
`useragent`, `modified`); returns the affected row count.  No row is ever
inserted. -/
def SqlActor.handleUpdate (store : IdentityStore) (msg : UpdateIdentity) :
    IdentityStore × Nat :=
  (store.map (fun r =>
      if r.id == msg.id then
        { r with ip := msg.ip, useragent := msg.useragent, modified := msg.modified }
      else r),
   (store.filter (fun r => r.id == msg.id)).length)

/-- `Handler<CreateIdentity> for SqlActor` (src/src/sql.rs, lines 257-289):
`diesel::insert_into(identities).values(&msg)`.  The surrogate id is chosen
by the database; the embedding takes it as a parameter. -/
def SqlActor.handleCreate (store : IdentityStore) (newId : Int) (msg : CreateIdentity) :
    IdentityStore × Nat :=
  (store ++ [⟨newId, msg.token, msg.userid, msg.ip, msg.useragent, msg.created, msg.modified⟩], 1)

/-- `Handler<DeleteIdentity> for SqlActor` (src/src/sql.rs, lines 352-382):
`diesel::delete(identities.filter(token.eq(msg.token)))`; returns the
affected row count (0 for a nonexistent token is a valid result). -/
def SqlActor.handleDelete (store : IdentityStore) (msgToken : String) :
    IdentityStore × Nat :=
  (store.filter (fun r => !(r.token == msgToken)),
   (store.filter (fun r => r.token == msgToken)).length)

/-- The standard base64 alphabet used by `base64::encode`. -/
def base64Alphabet : String :=
  "ABCDEFGHIJKLMNOPQRSTUVWXYZabcdefghijklmnopqrstuvwxyz0123456789+/"

/-- Character for a 6-bit group. -/
def base64Char (n : Nat) : Char :=
  base64Alphabet.toList.getD n 'A'

/-- Encode one full 3-byte group into 4 characters. -/
def base64Encode3 (b0 b1 b2 : Nat) : List Char :=
  [base64Char (b0 / 4),
   base64Char ((b0 % 4) * 16 + b1 / 16),
   base64Char ((b1 % 16) * 4 + b2 / 64),
   base64Char (b2 % 64)]

/-- Standard base64 of a byte list (with trailing-group padding, which never
arises for the 24-byte inputs of `remember`). -/
def base64EncodeList : List Nat → List Char
  | b0 :: b1 :: b2 :: rest => base64Encode3 b0 b1 b2 ++ base64EncodeList rest
  | [b0, b1] =>
      [base64Char (b0 / 4), base64Char ((b0 % 4) * 16 + b1 / 16),
       base64Char ((b1 % 16) * 4), '=']
  | [b0] =>
      [base64Char (b0 / 4), base64Char ((b0 % 4) * 16), '=', '=']
  | [] => []

/-- `base64::encode` as used in `SqlIdentity::remember`. -/
def base64Encode (bytes : List Nat) : String :=
  String.mk (base64EncodeList bytes)

/-- `SqlIdentity::remember` (src/src/lib.rs, lines 146-155): set the subject,
generate a fresh token (base64 of 24 random bytes, passed here as `arr`), and
set state to Changed. -/
def SqlIdentity.remember (self : SqlIdentity) (value : String) (arr : List Nat) :
    SqlIdentity :=
  { self with
      identity := some value,
      token := some (base64Encode arr),
      state := .Changed }

/-- `SqlIdentity::forget` (src/src/lib.rs, lines 158-161): clear the subject
and set state to Deleted; the token field is left as is. -/
def SqlIdentity.forget (self : SqlIdentity) : SqlIdentity :=
  { self with identity := none, state := .Deleted }

/-- A byte acceptable in an actix `HeaderValue` (visible ASCII or tab); this
is the check performed by `token.parse::<HeaderValue>()` in
`SqlIdentityInner::save`. -/
def isValidHeaderChar (c : Char) : Bool :=
  c.toNat == 9 || (32 ≤ c.toNat && c.toNat < 127)

/-- A string whose characters all fit in a header value. -/
def validHeaderValue (s : String) : Bool :=
  s.data.all isValidHeaderChar

/-- Modelled from the spec: the payload built by `UpdateIdentity::new`, which
`SqlIdentityInner::save` sends to the store but which is absent from
src/src/sql.rs (the file only defines the `update`/`create` constructors and
a changeset without token or subject).  Per the spec the update operation
addresses the record by its token and carries the mutable fields (subject,
ip, user agent). -/
structure UpdateIdentityNew where
  token : String
  userid : String
  ip : Option String
  useragent : Option String
  deriving DecidableEq, Repr

/-- Modelled from the spec: build the store message from the current identity
fields. -/
def UpdateIdentityNew.ofIdentity (id : SqlIdentity) : UpdateIdentityNew :=
  { token := (id.token).getD ""
    userid := (id.identity).getD ""
    ip := id.ip
    useragent := id.user_agent }

/-- Result of `SqlIdentityInner::save` (src/src/lib.rs, lines 213-248) before
the store round trip: either the token was appended to the response header and
the update message was sent, or one of the two early-error branches fired. -/
inductive SaveResult where
  | headerSet (hdrToken : String) (msg : UpdateIdentityNew)
  | tokenNotSet
  | tokenNotFound
  deriving DecidableEq, Repr

/-- `SqlIdentityInner::save`: if a token is present and parses as a header
value, append it to the response headers and send the update message;
a non-encodable token yields the 500-class TokenNotSet error without any
store call; a missing token yields TokenNotFound. -/
def SqlIdentityInner.save (id : SqlIdentity) : SaveResult :=
  match id.token with
  | some token =>
      if validHeaderValue token then
        .headerSet token (UpdateIdentityNew.ofIdentity id)
      else
        .tokenNotSet
  | none => .tokenNotFound

/-- The store effect a `write` enqueues: `SqlIdentityInner::save` with the
(state-reset) identity, or `SqlIdentityInner::remove` with the token. -/
inductive WriteEffect where
  | save (id : SqlIdentity)
  | remove (token : String)
  deriving DecidableEq, Repr

/-- Outcome of `SqlIdentity::write`: pass the response through untouched,
return a future performing a store effect, or fail immediately with a
400-class error. -/
inductive WriteResult where
  | done
  | future (eff : WriteEffect)
  | errBadRequest (e : SqlIdentityError)
  deriving DecidableEq, Repr

/-- `SqlIdentity::write` (src/src/lib.rs, lines 168-193).  Branches exactly as
the Rust match with guards: Changed with token and subject present resets
state and saves; Deleted with a token resets state and removes; Deleted or
Changed without the required fields returns ErrorBadRequest(TokenRequired)
leaving the state untouched; Unchanged resets state (a no-op) and passes the
response through. -/
def SqlIdentity.write (self : SqlIdentity) : SqlIdentity × WriteResult :=
  match self.state with
  | .Changed =>
      if self.token.isSome && self.identity.isSome then
        let self' := { self with state := .Unchanged }
        (self', .future (.save self'))
      else
        (self, .errBadRequest .TokenRequired)
  | .Deleted =>
      match self.token with
      | some token => ({ self with state := .Unchanged }, .future (.remove token))
      | none => (self, .errBadRequest .TokenRequired)
  | .Unchanged => ({ self with state := .Unchanged }, .done)

/-- Rust `str::split(' ')`: cut the character list at every space, keeping
empty pieces; the result always has at least one piece. -/
def splitSpaces : List Char → List (List Char)
  | [] => [[]]
  | c :: rest =>
      let r := splitSpaces rest
      if c == ' ' then [] :: r
      else
        match r with
        | [] => [[c]]
        | g :: gs => (c :: g) :: gs

/-- Authorization-header parsing inside `SqlIdentityInner::load`
(src/src/lib.rs, lines 273-311): `auth_header.split(' ')` with the first two
iterator items as scheme and token; both must be present, and the scheme is
otherwise ignored. -/
def parseAuthHeader (h : String) : Option String :=
  match splitSpaces h.data with
  | _scheme :: token :: _ => some (String.mk token)
  | _ => none

/-- `SqlIdentityInner::load`: absent or malformed headers yield no model, and
a store reply that is an error is absorbed into `none` (the `Err(e) =>
Ok(None)` arm), never propagated.  The store's reply for a token is the
function `find`. -/
def SqlIdentityInner.load (authHeader : Option String)
    (find : String → Except FindError SqlIdentityModel) :
    Option SqlIdentityModel :=
  match authHeader with
  | some h =>
      match parseAuthHeader h with
      | some token =>
          match find token with
          | .ok v => some v
          | .error _ => none
      | none => none
  | none => none

/-- `req.connection_info().remote().unwrap_or("0.0.0.0")`. -/
def resolveIp (remote : Option String) : String :=
  remote.getD "0.0.0.0"

/-- `req.headers().get("user-agent") ... unwrap_or("Unknown")`. -/
def resolveUserAgent (uaHeader : Option String) : String :=
  uaHeader.getD "Unknown"

/-- `SqlIdentityPolicy::from_request` (src/src/lib.rs, lines 418-453) after
`load` resolved: when a model was found the identity carries its token,
subject and creation time, the request ip (the `uip` computation returns the
stored ip only when it equals the request ip) — and the state field is the
literal `SqlIdentityState::Changed` (the computed `_state` is discarded by
the source).  When nothing was found the identity is empty with state
Unchanged and `created = now`. -/
def SqlIdentityPolicy.from_request (ip ua : String) (now : Int)
    (loaded : Option SqlIdentityModel) : SqlIdentity :=
  match loaded with
  | some id =>
      let uip :=
        match id.ip with
        | some nip => if ip == nip then nip else ip
        | none => ip
      { identity := some id.userid
        token := some id.token
        ip := some uip
        user_agent := some ua
        created := id.created
        state := .Changed }
  | none =>
      { identity := none
        token := none
        ip := none
        user_agent := some ua
        created := now
        state := .Unchanged }

/-! Helper lemmas about the base64 encoder. -/

theorem base64Alphabet_length : base64Alphabet.toList.length = 64 := by decide

theorem base64Alphabet_all_valid :
    ∀ c ∈ base64Alphabet.toList, isValidHeaderChar c = true := by decide

theorem base64Char_valid (n : Nat) : isValidHeaderChar (base64Char n) = true := by
  unfold base64Char
  by_cases hn : n < base64Alphabet.toList.length
  · rw [List.getD_eq_getElem _ _ hn]
    exact base64Alphabet_all_valid _ (List.getElem_mem hn)
  · rw [List.getD_eq_default _ _ (Nat.le_of_not_lt hn)]
    decide

theorem base64Char_mem (n : Nat) (h : n < 64) : base64Char n ∈ base64Alphabet.toList := by
  unfold base64Char
  have hn : n < base64Alphabet.toList.length := by rw [base64Alphabet_length]; exact h
  rw [List.getD_eq_getElem _ _ hn]
  exact List.getElem_mem hn

theorem base64EncodeList_valid :
    ∀ (bytes : List Nat), ∀ c ∈ base64EncodeList bytes, isValidHeaderChar c = true
  | [] => by simp [base64EncodeList]
  | [b0] => by
      intro c hc
      simp only [base64EncodeList, List.mem_cons, List.not_mem_nil, or_false] at hc
      rcases hc with h | h | h | h <;> subst h
      · exact base64Char_valid _
      · exact base64Char_valid _
      · decide
      · decide
  | [b0, b1] => by
      intro c hc
      simp only [base64EncodeList, List.mem_cons, List.not_mem_nil, or_false] at hc
      rcases hc with h | h | h | h <;> subst h
      · exact base64Char_valid _
      · exact base64Char_valid _
      · exact base64Char_valid _
      · decide
  | b0 :: b1 :: b2 :: rest => by
      intro c hc
      simp only [base64EncodeList, base64Encode3, List.mem_append, List.mem_cons,
        List.not_mem_nil, or_false] at hc
      rcases hc with (h | h | h | h) | h
      · subst h; exact base64Char_valid _
      · subst h; exact base64Char_valid _
      · subst h; exact base64Char_valid _
      · subst h; exact base64Char_valid _
      · exact base64EncodeList_valid rest c h

theorem base64Encode_validHeaderValue (bytes : List Nat) :
    validHeaderValue (base64Encode bytes) = true := by
  unfold validHeaderValue base64Encode
  rw [List.all_eq_true]
  intro c hc
  exact base64EncodeList_valid bytes c hc

theorem base64EncodeList_length :
    ∀ (n : Nat) (bytes : List Nat), bytes.length = 3 * n →
      (base64EncodeList bytes).length = 4 * n := by
  intro n
  induction n with
  | zero =>
      intro bytes h
      match bytes with
      | [] => rfl
      | _ :: _ => simp at h
  | succ k ih =>
      intro bytes h
      match bytes with
      | [] => simp at h
      | [b0] => simp at h; omega
      | [b0, b1] => simp at h; omega
      | b0 :: b1 :: b2 :: rest =>
          have hr : rest.length = 3 * k := by
            simp only [List.length_cons] at h; omega
          simp only [base64EncodeList, base64Encode3, List.length_append,
            List.length_cons, List.length_nil, ih rest hr]
          omega

theorem base64Encode3_mem (b0 b1 b2 : Nat) (h0 : b0 < 256) (h1 : b1 < 256)
    (h2 : b2 < 256) : ∀ c ∈ base64Encode3 b0 b1 b2, c ∈ base64Alphabet.toList := by
  intro c hc
  simp only [base64Encode3, List.mem_cons, List.not_mem_nil, or_false] at hc
  rcases hc with h | h | h | h <;> subst h <;> exact base64Char_mem _ (by omega)

theorem base64EncodeList_mem :
    ∀ (n : Nat) (bytes : List Nat), bytes.length = 3 * n →
      (∀ b ∈ bytes, b < 256) →
      ∀ c ∈ base64EncodeList bytes, c ∈ base64Alphabet.toList := by
  intro n
  induction n with
  | zero =>
      intro bytes h _hb
      match bytes with
      | [] => simp [base64EncodeList]
      | _ :: _ => simp at h
  | succ k ih =>
      intro bytes h hb
      match bytes with
      | [] => simp at h
      | [b0] => simp at h; omega
      | [b0, b1] => simp at h; omega
      | b0 :: b1 :: b2 :: rest =>
          have hr : rest.length = 3 * k := by
            simp only [List.length_cons] at h; omega
          intro c hc
          simp only [base64EncodeList, List.mem_append] at hc
          rcases hc with h3 | h3
          · exact base64Encode3_mem b0 b1 b2
              (hb b0 (by simp)) (hb b1 (by simp)) (hb b2 (by simp)) c h3
          · exact ih rest hr (fun b hbr => hb b (by simp [hbr])) c h3

/-! Claim theorems. -/

/-- C5: for every Identity whose state is Changed or Deleted but whose token
is absent, write returns the 400-class ErrorBadRequest(TokenRequired) outcome
and issues zero store calls (the result carries no store effect and the
identity is returned untouched). -/
theorem c5_write_without_token_bad_request (id : SqlIdentity)
    (hstate : id.state = .Changed ∨ id.state = .Deleted)
    (htok : id.token = none) :
    id.write = (id, .errBadRequest .TokenRequired) := by
  obtain ⟨st, idn, tok, nip, ua, cr⟩ := id
  simp only at hstate htok
  subst htok
  rcases hstate with h | h <;> subst h <;> rfl

/-- Witness for c5_write_without_token_bad_request at a concrete Deleted
identity with no token. -/
theorem c5_write_without_token_bad_request_witness :
    SqlIdentity.write ⟨.Deleted, none, none, none, none, 0⟩ =
      (⟨.Deleted, none, none, none, none, 0⟩, .errBadRequest .TokenRequired) :=
  c5_write_without_token_bad_request ⟨.Deleted, none, none, none, none, 0⟩
    (Or.inr rfl) rfl

/-- C8 counterexample: an empty Identity (constructed by extraction when no
valid token was presented — a reachable state) has no token, yet forget() on
it still sets state = Deleted; so state == Deleted does not imply a token was
present at the moment forget() was called. -/
theorem c8_counterexample :
    (SqlIdentityPolicy.from_request "1.2.3.4" "TestUA" 0 none).token = none ∧
    ((SqlIdentityPolicy.from_request "1.2.3.4" "TestUA" 0 none).forget).state =
      SqlIdentityState.Deleted :=
  ⟨rfl, rfl⟩

/-- C8 (amended): forget() sets state = Deleted, clears the subject and
leaves the token field unchanged, for every Identity — including one with no
token, so Deleted does not imply a token was present. -/
theorem c8_forget_behavior (id : SqlIdentity) :
    (id.forget).state = .Deleted ∧ (id.forget).identity = none ∧
    (id.forget).token = id.token :=
  ⟨rfl, rfl, rfl⟩

/-- C3 counterexample: an Identity whose extraction resolved subject "alice"
reports subject "bob" from the identity() accessor after a later
remember("bob") call in the same request, so the accessor is not independent
of later mutations. -/
theorem c3_counterexample :
    (SqlIdentityPolicy.from_request "1.2.3.4" "TestUA" 0
        (some ⟨1, "tok", "alice", none, none, 0, 0⟩)).identity = some "alice" ∧
    ((SqlIdentityPolicy.from_request "1.2.3.4" "TestUA" 0
        (some ⟨1, "tok", "alice", none, none, 0, 0⟩)).remember "bob"
          (List.range 24)).identity = some "bob" ∧
    (some "bob" : Option String) ≠ some "alice" :=
  ⟨rfl, rfl, by decide⟩

/-- C3 (amended): the identity() accessor is a pure read of the in-memory
subject field with no side effect; it returns the extraction-time subject
only until a mutation happens: after remember(s) it returns s and after
forget() it returns none. -/
theorem c3_identity_accessor (id : SqlIdentity) (s : String) (arr : List Nat)
    (rec : SqlIdentityModel) (ip ua : String) (now : Int) :
    (SqlIdentityPolicy.from_request ip ua now (some rec)).identity = some rec.userid ∧
    (SqlIdentityPolicy.from_request ip ua now none).identity = none ∧
    (id.remember s arr).identity = some s ∧
    (id.forget).identity = none :=
  ⟨rfl, rfl, rfl, rfl⟩

/-- C4 counterexample: a reachable Identity in state Deleted without a token
(empty extraction followed by forget()) is NOT reset to Unchanged by write —
the 400-class branch leaves the state untouched — and a second write call
returns the same 400-class error instead of being a pure pass-through. -/
theorem c4_counterexample :
    (((SqlIdentityPolicy.from_request "1.2.3.4" "TestUA" 0 none).forget).write).1.state ≠
      SqlIdentityState.Unchanged ∧
    (((((SqlIdentityPolicy.from_request "1.2.3.4" "TestUA" 0 none).forget).write).1.write).2 =
      WriteResult.errBadRequest .TokenRequired) := by
  exact ⟨by decide, by decide⟩

/-- C4 (amended): in the three non-error branches of write (Unchanged, and
Changed/Deleted with the required fields) the state is reset to Unchanged and
a second write is a pure pass-through no-op; in the 400-class branch the
identity (hence its state) is left untouched and a second write returns the
same 400-class error again. -/
theorem c4_write_reset_and_second_write (id : SqlIdentity) :
    ((id.write).2 ≠ .errBadRequest .TokenRequired →
      ((id.write).1.state = .Unchanged ∧ (id.write).1.write = ((id.write).1, .done))) ∧
    ((id.write).2 = .errBadRequest .TokenRequired →
      ((id.write).1 = id ∧ ((id.write).1.write).2 = .errBadRequest .TokenRequired)) := by
  obtain ⟨st, idn, tok, nip, ua, cr⟩ := id
  cases st <;> cases tok <;> cases idn <;>
    simp [SqlIdentity.write]

/-- Witness for c4_write_reset_and_second_write at a concrete Unchanged
identity: the second write is a pass-through. -/
theorem c4_write_reset_and_second_write_witness :
    (SqlIdentity.write ⟨.Unchanged, none, none, none, none, 0⟩).1.write =
      ((SqlIdentity.write ⟨.Unchanged, none, none, none, none, 0⟩).1, .done) :=
  ((c4_write_reset_and_second_write ⟨.Unchanged, none, none, none, none, 0⟩).1
    (by decide)).2

/-- C2 counterexample: a request that resolves a valid session record (store
contains the presented token) constructs its Identity with state = Changed,
not Unchanged — from_request hardcodes SqlIdentityState::Changed in the
resolved branch and discards the computed state. -/
theorem c2_counterexample :
    (SqlIdentityPolicy.from_request "1.2.3.4" "TestUA" 5
      (SqlIdentityInner.load (some "Bearer tok")
        (SqlActor.handleFind [⟨1, "tok", "alice", some "1.2.3.4", some "TestUA", 0, 0⟩]))).state ≠
      SqlIdentityState.Unchanged := by
  decide

/-- C2 (amended): only the anonymous Identity (no valid token presented) is
constructed with state = Unchanged and empty fields, and such a request with
no remember/forget issues no store call at write time; when a valid session
record is resolved the Identity is constructed with state = Changed carrying
the prior token and subject, so its write issues a store save even if the
handler never called remember or forget. -/
theorem c2_extraction_state (ip ua : String) (now : Int) (rec : SqlIdentityModel) :
    (SqlIdentityPolicy.from_request ip ua now none).state = .Unchanged ∧
    (SqlIdentityPolicy.from_request ip ua now none).identity = none ∧
    (SqlIdentityPolicy.from_request ip ua now none).token = none ∧
    (SqlIdentityPolicy.from_request ip ua now none).write =
      (SqlIdentityPolicy.from_request ip ua now none, .done) ∧
    (SqlIdentityPolicy.from_request ip ua now (some rec)).state = .Changed ∧
    (SqlIdentityPolicy.from_request ip ua now (some rec)).identity = some rec.userid ∧
    (SqlIdentityPolicy.from_request ip ua now (some rec)).token = some rec.token ∧
    (SqlIdentityPolicy.from_request ip ua now (some rec)).write =
      ({ SqlIdentityPolicy.from_request ip ua now (some rec) with state := .Unchanged },
       .future (.save { SqlIdentityPolicy.from_request ip ua now (some rec) with
         state := .Unchanged })) :=
  ⟨rfl, rfl, rfl, rfl, rfl, rfl, rfl, rfl⟩

/-- C6 counterexample: with two rows sharing the same token, the find handler
returns the first matching row instead of failing with NotFound, because
diesel first applies LIMIT 1; so more-than-one match is not an error in the
code. -/
theorem c6_counterexample :
    (([⟨1, "t", "u1", none, none, 0, 0⟩, ⟨2, "t", "u2", none, none, 0, 0⟩] :
        IdentityStore).filter (fun r => r.token == "t")).length = 2 ∧
    SqlActor.handleFind
        [⟨1, "t", "u1", none, none, 0, 0⟩, ⟨2, "t", "u2", none, none, 0, 0⟩] "t" =
      .ok ⟨1, "t", "u1", none, none, 0, 0⟩ := by
  exact ⟨by decide, rfl⟩

/-- C6 (amended): the store find operation fails with NotFound exactly when
zero rows match the token; when one or more rows match it returns the first
matching row and never errors. -/
theorem c6_find_semantics (store : IdentityStore) (tok : String) :
    (SqlActor.handleFind store tok = .error .notFound ↔
      store.filter (fun r => r.token == tok) = []) ∧
    (∀ r rest, store.filter (fun r => r.token == tok) = r :: rest →
      SqlActor.handleFind store tok = .ok r) := by
  cases h : store.filter (fun r => r.token == tok) with
  | nil =>
      refine ⟨⟨fun _ => rfl, fun _ => ?_⟩, fun r rest hr => ?_⟩
      · simp [SqlActor.handleFind, h]
      · cases hr
  | cons a as =>
      refine ⟨⟨fun hf => ?_, fun hemp => ?_⟩, fun r rest hr => ?_⟩
      · simp [SqlActor.handleFind, h] at hf
      · cases hemp
      · injection hr with h1 _
        subst h1
        simp [SqlActor.handleFind, h]

/-- Witness for c6_find_semantics: a one-row store resolves its token to that
row. -/
theorem c6_find_semantics_witness :
    SqlActor.handleFind [⟨1, "t", "u1", none, none, 0, 0⟩] "t" =
      .ok ⟨1, "t", "u1", none, none, 0, 0⟩ :=
  (c6_find_semantics [⟨1, "t", "u1", none, none, 0, 0⟩] "t").2
    ⟨1, "t", "u1", none, none, 0, 0⟩ [] (by decide)

/-- C9: extraction absorbs every failure into the same empty anonymous
Identity rather than erroring: an absent Authorization header, a header
without a space-separated scheme and token, and a find that never succeeds
(unresolvable token or a store failure, which load's error arm maps to None)
all yield load = none, and the empty Identity built from it is Unchanged with
no token and no subject. -/
theorem c9_failures_absorbed (h : String)
    (find : String → Except FindError SqlIdentityModel)
    (ip ua : String) (now : Int) :
    (SqlIdentityInner.load none find = none) ∧
    (parseAuthHeader h = none → SqlIdentityInner.load (some h) find = none) ∧
    (∀ t, parseAuthHeader h = some t → (∀ r, find t ≠ .ok r) →
      SqlIdentityInner.load (some h) find = none) ∧
    ((SqlIdentityPolicy.from_request ip ua now none).state = .Unchanged ∧
     (SqlIdentityPolicy.from_request ip ua now none).identity = none ∧
     (SqlIdentityPolicy.from_request ip ua now none).token = none) := by
  refine ⟨rfl, ?_, ?_, rfl, rfl, rfl⟩
  · intro hp
    simp [SqlIdentityInner.load, hp]
  · intro t hp hf
    cases hft : find t with
    | ok r => exact absurd hft (hf r)
    | error e => simp [SqlIdentityInner.load, hp, hft]

/-- Witness for c9_failures_absorbed: a garbled header and a store that
always fails both resolve to no session model. -/
theorem c9_failures_absorbed_witness :
    SqlIdentityInner.load (some "garbled") (fun _ => .error .notFound) = none ∧
    SqlIdentityInner.load (some "Bearer tok") (fun _ => .error .notFound) = none :=
  ⟨(c9_failures_absorbed "garbled" (fun _ => .error .notFound) "i" "u" 0).2.1
      (by decide),
   (c9_failures_absorbed "Bearer tok" (fun _ => .error .notFound) "i" "u" 0).2.2.1
      "tok" (by decide) (fun r hr => Except.noConfusion hr)⟩

/-- C7: remember(subject) sets both the subject and a fresh base64 token and
sets state = Changed, overwriting any prior pending state; after two
remember calls with no intervening write, the write phase hands the store
exactly one update message and it carries the second call's token and
subject — the first generated token appears in no store message. -/
theorem c7_remember_last_wins (id : SqlIdentity) (s1 s2 : String)
    (a1 a2 : List Nat) :
    ((id.remember s1 a1).state = .Changed ∧
     (id.remember s1 a1).identity = some s1 ∧
     (id.remember s1 a1).token = some (base64Encode a1)) ∧
    (((id.remember s1 a1).remember s2 a2).state = .Changed ∧
     ((id.remember s1 a1).remember s2 a2).identity = some s2 ∧
     ((id.remember s1 a1).remember s2 a2).token = some (base64Encode a2)) ∧
    ((id.remember s1 a1).remember s2 a2).write =
      ({ (id.remember s1 a1).remember s2 a2 with state := .Unchanged },
       .future (.save
         { (id.remember s1 a1).remember s2 a2 with state := .Unchanged })) ∧
    SqlIdentityInner.save
        { (id.remember s1 a1).remember s2 a2 with state := .Unchanged } =
      .headerSet (base64Encode a2)
        (UpdateIdentityNew.ofIdentity
          { (id.remember s1 a1).remember s2 a2 with state := .Unchanged }) ∧
    (UpdateIdentityNew.ofIdentity
        { (id.remember s1 a1).remember s2 a2 with state := .Unchanged }).token =
      base64Encode a2 ∧
    (UpdateIdentityNew.ofIdentity
        { (id.remember s1 a1).remember s2 a2 with state := .Unchanged }).userid =
      s2 := by
  refine ⟨⟨rfl, rfl, rfl⟩, ⟨rfl, rfl, rfl⟩, rfl, ?_, rfl, rfl⟩
  · simp [SqlIdentityInner.save, SqlIdentity.remember, base64Encode_validHeaderValue]

/-- C10: the token generated by remember — base64 of 24 bytes — is a
32-character string over the base64 alphabet, every character of which is
valid in an HTTP header value, so the header-encoding-failure branch of save
(the 500-class TokenNotSet outcome) is unreachable for generated tokens. -/
theorem c10_generated_token_header_safe (id : SqlIdentity) (value : String)
    (arr : List Nat) (hlen : arr.length = 24) (hbytes : ∀ b ∈ arr, b < 256) :
    ∃ s, (id.remember value arr).token = some s ∧
      s.length = 32 ∧
      (∀ c ∈ s.data, c ∈ base64Alphabet.toList) ∧
      validHeaderValue s = true ∧
      SqlIdentityInner.save (id.remember value arr) ≠ .tokenNotSet := by
  refine ⟨base64Encode arr, rfl, ?_, ?_, base64Encode_validHeaderValue arr, ?_⟩
  · show (base64EncodeList arr).length = 32
    have h8 : arr.length = 3 * 8 := by omega
    rw [base64EncodeList_length 8 arr h8]
  · intro c hc
    exact base64EncodeList_mem 8 arr (by omega) hbytes c hc
  · intro hsave
    simp [SqlIdentityInner.save, SqlIdentity.remember,
      base64Encode_validHeaderValue] at hsave

/-- Witness for c10_generated_token_header_safe at 24 concrete bytes. -/
theorem c10_generated_token_header_safe_witness :
    ∃ s, ((⟨.Unchanged, none, none, none, none, 0⟩ : SqlIdentity).remember
        "mike" (List.range 24)).token = some s ∧
      s.length = 32 ∧
      (∀ c ∈ s.data, c ∈ base64Alphabet.toList) ∧
      validHeaderValue s = true ∧
      SqlIdentityInner.save ((⟨.Unchanged, none, none, none, none, 0⟩ :
        SqlIdentity).remember "mike" (List.range 24)) ≠ .tokenNotSet :=
  c10_generated_token_header_safe ⟨.Unchanged, none, none, none, none, 0⟩
    "mike" (List.range 24) (by decide) (by decide)

/-- C1: the round-trip fails on this code — starting from an empty store, an
anonymous request whose handler calls remember("mike") has its write send an
UpdateIdentity message, but the UpdateIdentity handler only runs an UPDATE by
primary key (it never inserts, and its changeset does not even contain the
token or subject columns), so whatever message the write builds, the store
stays empty; a later request presenting the returned token then finds
nothing and resolves to an empty identity with current_subject() = none
instead of "mike". -/
theorem c1_roundtrip_fails (msg : UpdateIdentity) :
    ((SqlIdentityPolicy.from_request "1.2.3.4" "TestUA" 0
        (SqlIdentityInner.load none (SqlActor.handleFind []))).remember "mike"
          (List.range 24)).write.2 =
      .future (.save { (SqlIdentityPolicy.from_request "1.2.3.4" "TestUA" 0
        (SqlIdentityInner.load none (SqlActor.handleFind []))).remember "mike"
          (List.range 24) with state := .Unchanged }) ∧
    (SqlActor.handleUpdate [] msg).1 = [] ∧
    SqlActor.handleFind (SqlActor.handleUpdate [] msg).1
        (base64Encode (List.range 24)) = .error .notFound ∧
    (SqlIdentityPolicy.from_request "1.2.3.4" "TestUA" 1
        (SqlIdentityInner.load (some ("Bearer " ++ base64Encode (List.range 24)))
          (SqlActor.handleFind (SqlActor.handleUpdate [] msg).1))).identity =
      none := by
  refine ⟨rfl, rfl, rfl, ?_⟩
  have hload : SqlIdentityInner.load
      (some ("Bearer " ++ base64Encode (List.range 24)))
      (SqlActor.handleFind (SqlActor.handleUpdate [] msg).1) = none := by
    have hparse : parseAuthHeader ("Bearer " ++ base64Encode (List.range 24)) =
        some (base64Encode (List.range 24)) := by decide
    simp [SqlIdentityInner.load, hparse, SqlActor.handleFind, SqlActor.handleUpdate]
  rw [hload]
  rfl
